import Mathlib

/-!
Verification of the marker identity-resolution core (internal/entity/marker.go).

The Go entities are embedded shallowly: float fields become rationals,
database rows become explicit lists inside a `DB` state, and every operation
threads the marker and the database explicitly.  External collaborators
(collision reporter, Euclidean distance, text utilities, the face/subject
store) are either parameters of the operations or definitions modelled from
the spec, marked as such in their doc comments.  Storage writes are assumed
to succeed; the only fallible collaborator the claims exercise is the
collision reporter, which is passed in as a function returning an
`Except` value.
-/

namespace Photoprism

/-- An embedding vector; the source keeps these serialized as JSON and parses
them lazily, which is modelled by storing the parsed vectors directly. -/
abbrev Embedding := List ℚ

/-- A collection of embedding vectors attached to a marker. -/
abbrev Embeddings := List Embedding

/-- The collision reporting collaborator owned by a face: given a set of
embeddings, report whether a collision was newly recorded, or fail. -/
abbrev CollisionReporter := List Embedding → Except String Bool

/-- Marker type constant: unknown. -/
def MarkerUnknown : String := ""

/-- Marker type constant: face. -/
def MarkerFace : String := "face"

/-- Marker type constant: label. -/
def MarkerLabel : String := "label"

/-- Modelled from the spec: provenance tag for automatically derived data;
the tag constants live outside src/ in the entity package. -/
def SrcAuto : String := ""

/-- Modelled from the spec: provenance tag for default data. -/
def SrcDefault : String := "default"

/-- Modelled from the spec: provenance tag for data derived from the image
by the detector. -/
def SrcImage : String := "image"

/-- Modelled from the spec: provenance tag for data derived from a marker. -/
def SrcMarker : String := "marker"

/-- Modelled from the spec: provenance tag for manually entered data. -/
def SrcManual : String := "manual"

/-- Modelled from the spec: the provenance priority table, an explicit total
order with default lowest and manual highest (spec section 3); sources not in
the table get priority 0 as a Go map lookup would. -/
def SrcPriority (src : String) : Nat :=
  if src = SrcDefault then 1
  else if src = SrcAuto then 2
  else if src = SrcImage then 4
  else if src = SrcMarker then 4
  else if src = SrcManual then 8
  else 0

/-- A named identity (subject.go is outside src/; the fields used by
marker.go are modelled). -/
structure Subject where
  subjectUID : String
  subjectName : String
  subjectSrc : String
deriving DecidableEq

/-- A persistent face cluster anchor (face.go is outside src/; the fields
used by marker.go are modelled, with `embedding` standing for the reference
embedding returned by Face.Embedding()). -/
structure Face where
  id : String
  subjectUID : String
  faceSrc : String
  embedding : Embedding
deriving DecidableEq

/-- An image marker point, translated field by field from the Marker struct
in marker.go.  `subject` and `face` are the lazily loaded association
pointers; `embeddingsJSON` holds the (identity-parsed) embeddings payload. -/
structure Marker where
  id : Nat
  fileID : Nat
  markerType : String
  markerSrc : String
  markerName : String
  subjectUID : String
  subjectSrc : String
  subject : Option Subject
  faceID : String
  faceDist : ℚ
  face : Option Face
  embeddingsJSON : Embeddings
  landmarksJSON : String
  x : ℚ
  y : ℚ
  w : ℚ
  h : ℚ
  size : Int
  score : Int
  markerInvalid : Bool
  matchedAt : Option Nat
deriving DecidableEq

/-- The Go zero value of the Marker struct (in-memory defaults; the gorm
column defaults only apply on database reads). -/
def markerZero : Marker :=
  { id := 0, fileID := 0, markerType := "", markerSrc := "", markerName := "",
    subjectUID := "", subjectSrc := "", subject := none, faceID := "",
    faceDist := 0, face := none, embeddingsJSON := [], landmarksJSON := "",
    x := 0, y := 0, w := 0, h := 0, size := 0, score := 0,
    markerInvalid := false, matchedAt := none }

/-- NewMarker creates a new entity (marker.go line 59). -/
def NewMarker (fileID : Nat) (subjectUID markerSrc markerType : String)
    (x y w h : ℚ) : Marker :=
  { markerZero with
    fileID := fileID, subjectUID := subjectUID,
    markerSrc := markerSrc, markerType := markerType,
    x := x, y := y, w := w, h := h }

/-- Modelled from the spec: the detector output consumed by NewFaceMarker;
the face.Face type lives outside src/ and supplies a normalized region,
embeddings, landmarks, a pixel size and a score. -/
structure DetectedFace where
  posX : ℚ
  posY : ℚ
  posW : ℚ
  posH : ℚ
  embeddingsJSON : Embeddings
  landmarksJSON : String
  size : Int
  score : Int
deriving DecidableEq

/-- NewFaceMarker creates a new entity from a detected face
(marker.go line 75). -/
def NewFaceMarker (f : DetectedFace) (fileID : Nat) (refUID : String) : Marker :=
  { NewMarker fileID refUID SrcImage MarkerFace f.posX f.posY f.posW f.posH with
    matchedAt := none, faceDist := -1, embeddingsJSON := f.embeddingsJSON,
    landmarksJSON := f.landmarksJSON, size := f.size, score := f.score }

/-- The database state: marker, face and subject rows. -/
structure DB where
  markers : List Marker
  faces : List Face
  subjects : List Subject
deriving DecidableEq

/-- Applies an update to every marker row with the given id. -/
def DB.updateMarkerRow (db : DB) (id : Nat) (g : Marker → Marker) : DB :=
  { db with
    markers := db.markers.map (fun r => if r.id = id then g r else r) }

/-- Applies an update to every face row with the given id. -/
def DB.updateFaceRow (db : DB) (id : String) (g : Face → Face) : DB :=
  { db with
    faces := db.faces.map (fun f => if f.id = id then g f else f) }

/-- Returns the first list element satisfying the predicate, like a SQL
First query over rows kept in primary-key order. -/
def firstWhere {α : Type} (p : α → Bool) : List α → Option α
  | [] => none
  | a :: rest => if p a then some a else firstWhere p rest

/-- Modelled from the spec: the face store lookup by id (storage
get-by-id); FindFace lives in face.go, outside src/. -/
def FindFace (db : DB) (id : String) : Option Face :=
  if id = "" then none else firstWhere (fun f => f.id == id) db.faces

/-- Modelled from the spec: the subject store lookup by unique id;
FindSubject lives in subject.go, outside src/. -/
def FindSubject (db : DB) (uid : String) : Option Subject :=
  if uid = "" then none else firstWhere (fun s => s.subjectUID == uid) db.subjects

/-- Embeddings returns parsed marker embeddings (marker.go line 298); the
serialized payload is modelled by its parsed value, so parsing is the
identity and the memoization slot is invisible. -/
def Marker.Embeddings (m : Marker) : Embeddings := m.embeddingsJSON

/-- The next auto-increment marker id for an insert. -/
def DB.freshMarkerId (db : DB) : Nat :=
  db.markers.foldl (fun a r => max a r.id) 0 + 1

/-- A gorm Save: update the row when the key is set, insert with a fresh
key otherwise. -/
def dbSave (db : DB) (m : Marker) : Marker × DB :=
  if m.id > 0 then
    (m, db.updateMarkerRow m.id (fun _ => m))
  else
    let m1 := { m with
                id := db.freshMarkerId }
    (m1, { db with
           markers := db.markers ++ [m1] })

/-- A gorm Create: insert, assigning a fresh key when none is set. -/
def dbCreate (db : DB) (m : Marker) : Marker × DB :=
  let m1 := if m.id > 0 then m else { m with
                                      id := db.freshMarkerId }
  (m1, { db with
         markers := db.markers ++ [m1] })

/-- The result shape shared by Save, Create, SaveForm and
UpdateOrCreateMarker: the marker the call returns, the database state, and
the error if any. -/
structure SaveResult where
  marker : Marker
  db : DB
  err : Option String
deriving DecidableEq

/-- The geometry guard of Save and Create (marker.go lines 281 and 290). -/
abbrev invalidPosition (m : Marker) : Prop :=
  m.x = 0 ∨ m.y = 0 ∨ 1 < m.x ∨ 1 < m.y ∨ m.x < -1 ∨ m.y < -1

/-- Save updates the existing or inserts a new row (marker.go line 280). -/
def Marker.Save (m : Marker) (db : DB) : SaveResult :=
  if invalidPosition m then
    { marker := m, db := db, err := some "marker: invalid position" }
  else
    let p := dbSave db m
    { marker := p.1, db := p.2, err := none }

/-- Create inserts a new row to the database (marker.go line 289). -/
def Marker.Create (m : Marker) (db : DB) : SaveResult :=
  if invalidPosition m then
    { marker := m, db := db, err := some "marker: invalid position" }
  else
    let p := dbCreate db m
    { marker := p.1, db := p.2, err := none }

/-- Matched updates the match timestamp (marker.go line 415). -/
def Marker.Matched (m : Marker) (db : DB) (now : Nat) : Marker × DB :=
  let m1 := { m with
              matchedAt := some now }
  (m1, db.updateMarkerRow m.id (fun r => { r with
                                           matchedAt := some now }))

/-- Modelled from the spec: NewSubject constructs a subject entity for a
free-text name (subject.go is outside src/); the store assigns the unique
id on create. -/
def NewSubject (name : String) (src : String) : Option Subject :=
  if name = "" then none
  else some { subjectUID := "", subjectName := name, subjectSrc := src }

/-- Modelled from the spec: the subject store create-or-find by name; a
fresh subject gets a name-derived unique id. -/
def FirstOrCreateSubject (db : DB) (s : Subject) : Option Subject × DB :=
  match firstWhere (fun t => t.subjectName == s.subjectName) db.subjects with
  | some t => (some t, db)
  | none =>
    let t := { s with
               subjectUID := "s-" ++ s.subjectName }
    (some t, { db with
               subjects := db.subjects ++ [t] })

/-- Modelled from the spec: renames the subject in the store (subject.go
is outside src/). -/
def Subject.UpdateName (s : Subject) (name : String) (db : DB) : Subject × DB :=
  ({ s with
     subjectName := name },
   { db with
     subjects := db.subjects.map
      (fun t => if t.subjectUID = s.subjectUID then { t with
                                                      subjectName := name } else t) })

/-- GetSubject returns a subject entity if possible (marker.go line 311):
the cached association, else a lazily created subject for a named marker
without an id, else a store lookup by id. -/
def Marker.GetSubject (m : Marker) (db : DB) : Option Subject × Marker × DB :=
  match m.subject with
  | some s => (some s, m, db)
  | none =>
    if m.subjectUID = "" ∧ m.markerName ≠ "" then
      match NewSubject m.markerName SrcMarker with
      | none => (none, m, db)
      | some s0 =>
        match FirstOrCreateSubject db s0 with
        | (none, db1) => (none, m, db1)
        | (some subj, db1) =>
          (some subj,
           { m with
             subjectUID := subj.subjectUID, subjectSrc := SrcManual }, db1)
    else
      let s := FindSubject db m.subjectUID
      (s, { m with
            subject := s }, db)

/-- Modelled from the spec: the fixed minimum pixel size for minting a new
face; the constant lives in the face package, outside src/. -/
def ClusterMinSize : Int := 160

/-- Modelled from the spec: the fixed minimum score for minting a new
face; the constant lives in the face package, outside src/. -/
def ClusterMinScore : Int := 15

/-- Modelled from the spec: NewFace mints a face cluster from a subject
id, a source and embeddings (face.go is outside src/); the content-derived
id is opaque and stands in as a count tag, the reference embedding is the
first vector. -/
def NewFace (subjUID src : String) (embs : Embeddings) : Option Face :=
  some { id := "f-" ++ toString embs.length, subjectUID := subjUID,
         faceSrc := src, embedding := embs.headD [] }

/-- GetFace returns a matching face entity if possible (marker.go line 363):
the cached association; else, for a manually confirmed marker with no face,
a freshly minted face when size and score meet the thresholds (the
MatchMarkers sweep it triggers lives in face.go and only touches other
markers, modelled as no further change); else a store lookup by id. -/
def Marker.GetFace (m : Marker) (db : DB) : Option Face × Marker × DB :=
  match m.face with
  | some f => (some f, m, db)
  | none =>
    if m.faceID = "" ∧ m.subjectSrc = SrcManual then
      if m.size < ClusterMinSize ∨ m.score < ClusterMinScore then (none, m, db)
      else
        match NewFace m.subjectUID SrcManual m.Embeddings with
        | none => (none, m, db)
        | some f =>
          (some f, { m with
                     face := some f, faceID := f.id },
           { db with
             faces := db.faces ++ [f] })
    else
      let f := FindFace db m.faceID
      (f, { m with
            face := f }, db)

/-- SyncSubject maintains the marker subject relationship
(marker.go line 232).  Storage and subject-store writes are modelled as
succeeding, so no error value is produced. -/
def Marker.SyncSubject (m : Marker) (db : DB) (updateRelated : Bool) : Marker × DB :=
  if m.markerType ≠ MarkerFace then (m, db)
  else
    match m.GetSubject db with
    | (none, m1, db1) => (m1, db1)
    | (some subj, m1, db1) =>
      let db2 :=
        if m1.markerName = "" ∨ subj.subjectName = m1.markerName ∨
            (subj.subjectName ≠ "" ∧ m1.subjectSrc ≠ SrcManual) then db1
        else (subj.UpdateName m1.markerName db1).2
      let p :=
        if m1.faceID ≠ "" ∨ m1.subjectSrc ≠ SrcManual then (m1, db2)
        else
          match m1.GetFace db2 with
          | (none, m2, db3) => (m2, db3)
          | (some f, m2, db3) => ({ m2 with
                                    faceID := f.id }, db3)
      let m2 := p.1
      let db3 := p.2
      if m2.faceID = "" ∨ m2.subjectUID = "" then (m2, db3)
      else
        let upd4 := fun (f : Face) =>
          if f.id = m2.faceID ∧ f.subjectUID = "" then
            { f with subjectUID := m2.subjectUID }
          else f
        let db4 := { db3 with faces := db3.faces.map upd4 }
        if updateRelated = false then (m2, db4)
        else
          (m2, { db4 with
                 markers := db4.markers.map (fun r =>
            if r.id ≠ m2.id ∧ r.faceID = m2.faceID ∧ r.subjectSrc = SrcAuto ∧
                r.subjectUID ≠ m2.subjectUID then
              { r with
                subjectUID := m2.subjectUID, subjectSrc := SrcAuto }
            else r) })

/-- One step of the smallest-distance loop in SetFace (marker.go line 202):
take the new distance when it is smaller or no distance is known yet. -/
def minDistStep (cur d : ℚ) : ℚ := if d < cur ∨ cur < 0 then d else cur

/-- The smallest-distance loop of SetFace (marker.go lines 197 to 205):
walk the marker embeddings, skipping vectors whose length differs from the
face embedding, keeping the smallest distance seen; `edist` is the external
Euclidean distance. -/
def computeFaceDist (edist : Embedding → Embedding → ℚ) (faceEmb : Embedding) :
    Embeddings → ℚ → ℚ
  | [], cur => cur
  | e :: rest, cur =>
    if e.length ≠ faceEmb.length then computeFaceDist edist faceEmb rest cur
    else computeFaceDist edist faceEmb rest (minDistStep cur (edist e faceEmb))

/-- The face-adopts-marker-subject step of SetFace (marker.go lines 172
to 176): the face takes the marker subject only when the face subject is
empty and the marker subject is known. -/
def adoptSubject (m : Marker) (f : Face) : Face :=
  if f.subjectUID = "" ∧ m.subjectUID ≠ "" then { f with
                                                  subjectUID := m.subjectUID }
  else f

/-- The result of SetFace: the marker, the (possibly updated) candidate
face, the database, the updated flag, the error, and the list of collision
reporter invocations with their embeddings argument. -/
structure SetFaceResult where
  marker : Marker
  face : Option Face
  db : DB
  updated : Bool
  err : Option String
  collisions : List Embeddings
deriving DecidableEq

/-- The tail of SetFace after the nil, type and conflict guards
(marker.go lines 171 to 228): face subject adoption, the skip of an
already matched face, then the assignment with distance computation,
subject synchronization and the multi-column update. -/
def setFaceAssign (m : Marker) (f : Face) (dist : ℚ)
    (edist : Embedding → Embedding → ℚ) (db : DB) (now : Nat) : SetFaceResult :=
  let f1 := adoptSubject m f
  let db1 :=
    if f.subjectUID = "" ∧ m.subjectUID ≠ "" then
      db.updateFaceRow f.id (fun g => { g with
                                        subjectUID := m.subjectUID })
    else db
  if m.subjectUID = f1.subjectUID ∧ m.faceID = f1.id then
    { marker := { m with
                  matchedAt := some now }, face := some f1,
      db := db1.updateMarkerRow m.id (fun r => { r with
                                                 matchedAt := some now }),
      updated := false, err := none, collisions := [] }
  else
    let m1 := { m with
                faceID := f1.id, faceDist := dist }
    let m2 :=
      if m1.faceDist < 0 then
        { m1 with
          faceDist := computeFaceDist edist f1.embedding m1.Embeddings m1.faceDist }
      else m1
    let m3 := if f1.subjectUID ≠ "" then { m2 with
                                           subjectUID := f1.subjectUID } else m2
    let q := m3.SyncSubject db1 false
    let m4 := q.1
    let db2 := q.2
    let r :=
      if m4.subjectUID = "" ∨ f1.subjectUID ≠ m4.subjectUID then (f1, db2)
      else ({ f1 with
              subjectUID := m4.subjectUID },
            db2.updateFaceRow f1.id (fun g => { g with
                                                subjectUID := m4.subjectUID }))
    let m5 := { m4 with
                matchedAt := some now }
    { marker := m5, face := some r.1,
      db := r.2.updateMarkerRow m5.id (fun row =>
        { row with
          faceID := m5.faceID, faceDist := m5.faceDist,
          subjectUID := m5.subjectUID, subjectSrc := m5.subjectSrc,
          matchedAt := some now }),
      updated := decide (m4.faceID ≠ m.faceID ∨ m4.subjectUID ≠ m.subjectUID ∨
                         m4.subjectSrc ≠ m.subjectSrc),
      err := none, collisions := [] }

/-- SetFace sets a new face for this marker (marker.go line 150).  The
collision reporter `rc` is the external collaborator owned by the face;
`edist` is the external Euclidean distance; `now` is the clock reading
TimePointer would return. -/
def Marker.SetFace (m : Marker) (fOpt : Option Face) (dist : ℚ)
    (edist : Embedding → Embedding → ℚ)
    (rc : CollisionReporter)
    (db : DB) (now : Nat) : SetFaceResult :=
  match fOpt with
  | none =>
    { marker := m, face := none, db := db, updated := false,
      err := some "face is nil", collisions := [] }
  | some f =>
    if m.markerType ≠ MarkerFace then
      { marker := m, face := some f, db := db, updated := false,
        err := some "not a face marker", collisions := [] }
    else if m.subjectSrc ≠ SrcManual ∨ f.subjectUID = "" ∨ m.subjectUID = "" ∨
        f.subjectUID = m.subjectUID then
      setFaceAssign m f dist edist db now
    else
      match rc m.Embeddings with
      | Except.error e =>
        { marker := m, face := some f, db := db, updated := false,
          err := some e, collisions := [m.Embeddings] }
      | Except.ok _reported =>
        { marker := m, face := some f, db := db, updated := false,
          err := none, collisions := [m.Embeddings] }

/-- The result of ClearFace. -/
structure ClearFaceResult where
  marker : Marker
  db : DB
  updated : Bool
  err : Option String
deriving DecidableEq

/-- ClearFace removes an existing face association (marker.go line 391).
The gorm Updates call also assigns the map values to the struct fields,
which is why the in-memory distance is cleared as well. -/
def Marker.ClearFace (m : Marker) (db : DB) (now : Nat) : ClearFaceResult :=
  if m.faceID = "" then
    let p := m.Matched db now
    { marker := p.1, db := p.2, updated := false, err := none }
  else if m.subjectSrc = SrcAuto then
    { marker := { m with
                  face := none, faceID := "", faceDist := -1,
                  subjectUID := "", matchedAt := some now },
      db := db.updateMarkerRow m.id (fun r =>
        { r with
          faceID := "", faceDist := -1, subjectUID := "", matchedAt := some now }),
      updated := true, err := none }
  else
    { marker := { m with
                  face := none, faceID := "", faceDist := -1,
                  matchedAt := some now },
      db := db.updateMarkerRow m.id (fun r =>
        { r with
          faceID := "", faceDist := -1, matchedAt := some now }),
      updated := true, err := none }

/-- The result of ClearSubject: the marker, the database, the error, and
the collision reporter invocations with their embeddings argument. -/
structure ClearSubjectResult where
  marker : Marker
  db : DB
  err : Option String
  collisions : List Embeddings
deriving DecidableEq

/-- The face resolution step of ClearSubject (marker.go lines 337 to 339):
the loaded association, or the store lookup by face id. -/
def resolveFace (m : Marker) (db : DB) : Option Face :=
  if m.face = none then FindFace db m.faceID else m.face

/-- ClearSubject removes an existing subject association and reports a
collision (marker.go line 336): the current face is resolved (by id when
not loaded); when found, the detachment is reported as a collision and the
cleared columns are persisted; the in-memory fields are cleared in every
non-error case, while on a reporter error only the loaded face association
remains. -/
def Marker.ClearSubject (m : Marker) (src : String)
    (rc : CollisionReporter) (db : DB) : ClearSubjectResult :=
  match resolveFace m db with
  | none =>
    { marker := { m with
                  face := none, markerName := "", faceID := "",
                  faceDist := -1, subjectUID := "", subjectSrc := src },
      db := db, err := none, collisions := [] }
  | some f =>
    match rc m.Embeddings with
    | Except.error e =>
      { marker := { m with
                    face := some f },
        db := db, err := some e, collisions := [m.Embeddings] }
    | Except.ok _reported =>
      { marker := { m with
                    face := none, markerName := "", faceID := "",
                    faceDist := -1, subjectUID := "", subjectSrc := src },
        db := db.updateMarkerRow m.id (fun r =>
          { r with
            markerName := "", faceID := "", faceDist := -1,
            subjectUID := "", subjectSrc := src }),
        err := none, collisions := [m.Embeddings] }

/-- Modelled from the spec: the form data consumed by SaveForm (the form
package is outside src/). -/
structure FormMarker where
  markerInvalid : Bool
  markerName : String
  subjectSrc : String
deriving DecidableEq

/-- Modelled from the spec: the external title-casing text utility,
opaque here. -/
def txtTitle (s : String) : String := s

/-- Modelled from the spec: the external clipping text utility. -/
def txtClip (s : String) (n : Nat) : String := s.take n

/-- Modelled from the spec: the default clip length of the text package. -/
def ClipDefault : Nat := 160

/-- The first step of SaveForm (marker.go lines 104 to 107): take the
validity flag from the form, tracking whether anything changed. -/
def saveFormStep1 (m : Marker) (f : FormMarker) : Marker × Bool :=
  if m.markerInvalid ≠ f.markerInvalid then
    ({ m with
       markerInvalid := f.markerInvalid }, true)
  else (m, false)

/-- The second step of SaveForm (marker.go lines 109 to 112): lift the
score of a marker that is not invalid to at least 100. -/
def saveFormStep2 (m1 : Marker) (changed : Bool) : Marker × Bool :=
  if m1.markerInvalid = false ∧ m1.score < 100 then
    ({ m1 with
       score := 100 }, true)
  else (m1, changed)

/-- SaveForm updates the entity using form data and stores it in the
database (marker.go line 101). -/
def Marker.SaveForm (m : Marker) (f : FormMarker) (db : DB) : SaveResult :=
  let p1 := saveFormStep1 m f
  let p2 := saveFormStep2 p1.1 p1.2
  let m2 := p2.1
  if f.subjectSrc = SrcManual ∧ f.markerName.trim ≠ "" then
    let m3 := { m2 with
                subjectSrc := SrcManual,
                markerName := txtTitle (txtClip f.markerName ClipDefault) }
    let q := m3.SyncSubject db true
    q.1.Save q.2
  else if p2.2 then m2.Save db
  else { marker := m2, db := db, err := none }

/-- The near-duplicate tolerance of UpdateOrCreateMarker
(marker.go line 433). -/
def markerDupTolerance : ℚ := 7/100

/-- The near-duplicate search of UpdateOrCreateMarker (marker.go
lines 441 and 442): the first marker row on the same file whose center
lies strictly within the tolerance window on both axes. -/
def findNearDuplicate (db : DB) (m : Marker) : Option Marker :=
  firstWhere (fun r => r.fileID == m.fileID &&
    decide (m.x - markerDupTolerance < r.x) && decide (r.x < m.x + markerDupTolerance) &&
    decide (m.y - markerDupTolerance < r.y) && decide (r.y < m.y + markerDupTolerance))
    db.markers

/-- UpdateOrCreateMarker updates a marker in the database or creates a new
one if needed (marker.go line 432). -/
def UpdateOrCreateMarker (m : Marker) (db : DB) : SaveResult :=
  if m.id > 0 then m.Save db
  else
    match findNearDuplicate db m with
    | some result =>
      if SrcPriority m.markerSrc < SrcPriority result.markerSrc then
        { marker := result, db := db, err := none }
      else
        { marker := { result with
                      x := m.x, y := m.y, w := m.w, h := m.h,
                      score := m.score, landmarksJSON := m.landmarksJSON,
                      embeddingsJSON := m.embeddingsJSON, subjectUID := m.subjectUID },
          db := db.updateMarkerRow result.id (fun r =>
            { r with
              x := m.x, y := m.y, w := m.w, h := m.h,
              score := m.score, landmarksJSON := m.landmarksJSON,
              embeddingsJSON := m.embeddingsJSON, subjectUID := m.subjectUID }),
          err := none }
    | none => m.Create db

/-- A concrete nonnegative distance function for witnesses: the summed
squared coordinate differences. -/
def sqDist (a b : Embedding) : ℚ :=
  ((a.zip b).map (fun p => (p.1 - p.2) * (p.1 - p.2))).sum

/-- A collision reporter that records no collision. -/
def rcOk : Embeddings → Except String Bool := fun _ => Except.ok false

/-- A collision reporter that records a collision. -/
def rcTrue : Embeddings → Except String Bool := fun _ => Except.ok true

/-- A collision reporter that fails. -/
def rcErr : Embeddings → Except String Bool := fun _ => Except.error "collision reporter failed"

/-- The empty database. -/
def dbEmpty : DB := { markers := [], faces := [], subjects := [] }

/-- A geometrically valid face marker fixture. -/
def markerValid : Marker :=
  { markerZero with
    markerType := MarkerFace, markerSrc := SrcImage, x := 1, y := 1 }

/-- A candidate with invalid geometry (zero position) and no persisted id. -/
def mC2bad : Marker :=
  { markerZero with
    markerType := MarkerFace, markerSrc := SrcImage }

/-- An existing marker row used as the near-duplicate target. -/
def rC2exist : Marker :=
  { markerZero with
    id := 1, fileID := 5, markerType := MarkerFace, markerSrc := SrcImage,
    markerName := "Jane", subjectUID := "sX", subjectSrc := SrcManual,
    faceID := "fX", faceDist := 1/4, size := 300, score := 70,
    x := 1/2, y := 1/2, w := 1/10, h := 1/10, landmarksJSON := "old" }

/-- A fresh candidate near rC2exist on the same file. -/
def mC2cand : Marker :=
  { markerZero with
    fileID := 5, markerType := MarkerFace, markerSrc := SrcImage,
    subjectUID := "sY", score := 90, x := 13/25, y := 49/100,
    w := 1/8, h := 1/8, landmarksJSON := "new",
    embeddingsJSON := [[1, 2]] }

/-- The database holding the near-duplicate target row. -/
def dbC2 : DB := { markers := [rC2exist], faces := [], subjects := [] }

/-- A valid marker violating the score invariant: not invalid, score 50. -/
def mC9 : Marker :=
  { markerZero with
    markerType := MarkerFace, markerSrc := SrcImage, x := 1, y := 1,
    score := 50 }

/-- A face marker with a face set and an automatic subject, for ClearFace. -/
def mC7auto : Marker :=
  { markerZero with
    id := 3, markerType := MarkerFace, markerSrc := SrcImage,
    faceID := "f1", faceDist := 2, subjectUID := "sA", subjectSrc := SrcAuto,
    x := 1, y := 1 }

/-- A face marker with a face set and a manual subject, for ClearFace. -/
def mC7manual : Marker :=
  { mC7auto with
    subjectSrc := SrcManual }

/-- A neutral form for the C9 witness. -/
def fC9 : FormMarker :=
  { markerInvalid := false, markerName := "", subjectSrc := "" }

/-- A face bound to subject sB, for the conflict scenario. -/
def fC1 : Face :=
  { id := "f9", subjectUID := "sB", faceSrc := SrcAuto, embedding := [1] }

/-- A face marker with manual subject sA, for the conflict scenario. -/
def mC1 : Marker :=
  { markerZero with
    id := 7, markerType := MarkerFace, markerSrc := SrcImage,
    subjectUID := "sA", subjectSrc := SrcManual,
    embeddingsJSON := [[2]], x := 1, y := 1 }

/-- A face agreeing with marker mC4, for the idempotence scenario. -/
def fC4 : Face :=
  { id := "f4", subjectUID := "sA", faceSrc := SrcAuto, embedding := [] }

/-- A marker already matched to face f4 with the same subject. -/
def mC4 : Marker :=
  { markerZero with
    id := 8, markerType := MarkerFace, markerSrc := SrcImage,
    faceID := "f4", faceDist := 2, subjectUID := "sA", subjectSrc := SrcManual,
    x := 1, y := 1 }

/-- A distance collaborator that is identically zero. -/
def edistZero : Embedding → Embedding → ℚ := fun _ _ => 0

/-- A distance collaborator returning 0 on equal vectors and 9 otherwise. -/
def edistIf : Embedding → Embedding → ℚ := fun a b => if a = b then 0 else 9

/-- A subjectless face for the stale-distance scenario. -/
def fC5 : Face :=
  { id := "f5", subjectUID := "", faceSrc := SrcAuto, embedding := [0] }

/-- A marker already matched to f5 carrying a stale distance of 5. -/
def mC5 : Marker :=
  { markerZero with
    id := 11, markerType := MarkerFace, faceID := "f5",
    faceDist := 5, embeddingsJSON := [[0]], x := 1, y := 1 }

/-- A subjectless face with a one-dimensional reference embedding. -/
def fC5w : Face :=
  { id := "fw", subjectUID := "", faceSrc := SrcAuto, embedding := [3] }

/-- An unmatched marker with embeddings of lengths one and two. -/
def mC5w : Marker :=
  { markerZero with
    id := 12, markerType := MarkerFace,
    embeddingsJSON := [[0], [1, 2]], x := 1, y := 1 }

/-- The subject named Ann with uid sA. -/
def subjC6 : Subject :=
  { subjectUID := "sA", subjectName := "Ann", subjectSrc := SrcManual }

/-- A manually confirmed marker bound to face f6 and subject sA, with the
subject association already loaded. -/
def mC6 : Marker :=
  { markerZero with
    id := 31, markerType := MarkerFace, faceID := "f6",
    subjectUID := "sA", subjectSrc := SrcManual, subject := some subjC6,
    x := 1, y := 1 }

/-- A sibling marker on the same face with an automatic subject sB. -/
def sibC6 : Marker :=
  { markerZero with
    id := 32, markerType := MarkerFace, faceID := "f6",
    subjectUID := "sB", subjectSrc := SrcAuto, x := 1, y := 1 }

/-- The face f6, currently without a subject. -/
def fC6 : Face :=
  { id := "f6", subjectUID := "", faceSrc := SrcAuto, embedding := [] }

/-- The database for the propagation scenario. -/
def dbC6 : DB :=
  { markers := [mC6, sibC6], faces := [fC6], subjects := [subjC6] }

/-- A marker whose face id resolves to nothing. -/
def mC8 : Marker :=
  { markerZero with
    id := 21, markerType := MarkerFace, markerName := "Ann",
    faceID := "nope", subjectUID := "sA", subjectSrc := SrcManual,
    x := 1, y := 1 }

/-- The database holding only the mC8 row and no faces. -/
def dbC8 : DB := { markers := [mC8], faces := [], subjects := [] }

/-- The face f8 that mC8b is detached from. -/
def fC8 : Face :=
  { id := "f8", subjectUID := "sB", faceSrc := SrcAuto, embedding := [] }

/-- A marker bound to the resolvable face f8. -/
def mC8b : Marker :=
  { mC8 with
    faceID := "f8", embeddingsJSON := [[7]] }

/-- The database holding the mC8b row and the face f8. -/
def dbC8b : DB := { markers := [mC8b], faces := [fC8], subjects := [] }

/-- C3: Save and Create fail with an invalid-position error and perform no
persistence or other mutation exactly when X = 0 or Y = 0 or X or Y lies
outside the closed interval from -1 to 1; on every other marker the
geometry validation passes and persistence is attempted. -/
theorem C3_save_create_geometry (m : Marker) (db : DB) :
    ((m.Save db).err ≠ none ↔ invalidPosition m) ∧
    ((m.Create db).err ≠ none ↔ invalidPosition m) ∧
    (invalidPosition m →
      m.Save db = { marker := m, db := db, err := some "marker: invalid position" } ∧
      m.Create db = { marker := m, db := db, err := some "marker: invalid position" }) ∧
    (¬ invalidPosition m →
      m.Save db = { marker := (dbSave db m).1, db := (dbSave db m).2, err := none } ∧
      m.Create db = { marker := (dbCreate db m).1, db := (dbCreate db m).2, err := none }) := by
  unfold Marker.Save Marker.Create
  by_cases h : invalidPosition m
  · simp [h]
  · simp [h]

/-- Witness for C3: a concrete valid marker passes the validation and a
save is attempted on the empty database. -/
theorem C3_save_create_geometry_witness :
    ¬ invalidPosition markerValid ∧
    markerValid.Save dbEmpty =
      { marker := (dbSave dbEmpty markerValid).1,
        db := (dbSave dbEmpty markerValid).2, err := none } := by
  have h : ¬ invalidPosition markerValid := by decide
  exact ⟨h, ((C3_save_create_geometry markerValid dbEmpty).2.2.2 h).1⟩

/-- C2 counterexample: a candidate with no persisted id and no
near-duplicate on its file is NOT always inserted as a new marker; with
zero geometry the insert is rejected and the database is unchanged. -/
theorem C2_counterexample :
    mC2bad.id = 0 ∧ findNearDuplicate dbEmpty mC2bad = none ∧
    (UpdateOrCreateMarker mC2bad dbEmpty).db.markers = [] ∧
    (UpdateOrCreateMarker mC2bad dbEmpty).err ≠ none := by decide

/-- C2 (amended): for a candidate with no persisted id, a near-duplicate of
strictly higher source priority wins and the candidate is discarded; a
near-duplicate of not-higher priority has its geometry, score, landmarks,
embeddings and subject link overwritten with the candidate values; with no
near-duplicate the candidate is inserted as a new marker provided its
geometry is valid, and rejected with the invalid-position error otherwise. -/
theorem C2_update_or_create (m : Marker) (db : DB) (hid : m.id = 0) :
    (∀ r, findNearDuplicate db m = some r →
      SrcPriority m.markerSrc < SrcPriority r.markerSrc →
      UpdateOrCreateMarker m db = { marker := r, db := db, err := none }) ∧
    (∀ r, findNearDuplicate db m = some r →
      ¬ SrcPriority m.markerSrc < SrcPriority r.markerSrc →
      UpdateOrCreateMarker m db =
        { marker := { r with
                      x := m.x, y := m.y, w := m.w, h := m.h,
                      score := m.score, landmarksJSON := m.landmarksJSON,
                      embeddingsJSON := m.embeddingsJSON,
                      subjectUID := m.subjectUID },
          db := db.updateMarkerRow r.id (fun row =>
            { row with
              x := m.x, y := m.y, w := m.w, h := m.h,
              score := m.score, landmarksJSON := m.landmarksJSON,
              embeddingsJSON := m.embeddingsJSON,
              subjectUID := m.subjectUID }),
          err := none }) ∧
    (findNearDuplicate db m = none → ¬ invalidPosition m →
      UpdateOrCreateMarker m db =
        { marker := (dbCreate db m).1, db := (dbCreate db m).2, err := none }) ∧
    (findNearDuplicate db m = none → invalidPosition m →
      UpdateOrCreateMarker m db =
        { marker := m, db := db, err := some "marker: invalid position" }) := by
  have hgt : ¬ m.id > 0 := by omega
  refine ⟨?_, ?_, ?_, ?_⟩
  · intro r hdup hpr
    simp [UpdateOrCreateMarker, hgt, hdup, hpr]
  · intro r hdup hpr
    simp [UpdateOrCreateMarker, hgt, hdup, hpr]
  · intro hdup hval
    simp [UpdateOrCreateMarker, hgt, hdup, Marker.Create, hval]
  · intro hdup hval
    simp [UpdateOrCreateMarker, hgt, hdup, Marker.Create, hval]

/-- Witness for C2: the concrete candidate mC2cand overwrites the
near-duplicate rC2exist of equal priority. -/
theorem C2_update_or_create_witness :
    findNearDuplicate dbC2 mC2cand = some rC2exist ∧
    UpdateOrCreateMarker mC2cand dbC2 =
      { marker := { rC2exist with
                    x := mC2cand.x, y := mC2cand.y, w := mC2cand.w,
                    h := mC2cand.h, score := mC2cand.score,
                    landmarksJSON := mC2cand.landmarksJSON,
                    embeddingsJSON := mC2cand.embeddingsJSON,
                    subjectUID := mC2cand.subjectUID },
        db := dbC2.updateMarkerRow rC2exist.id (fun row =>
          { row with
            x := mC2cand.x, y := mC2cand.y, w := mC2cand.w,
            h := mC2cand.h, score := mC2cand.score,
            landmarksJSON := mC2cand.landmarksJSON,
            embeddingsJSON := mC2cand.embeddingsJSON,
            subjectUID := mC2cand.subjectUID }),
        err := none } := by
  have hdup : findNearDuplicate dbC2 mC2cand = some rC2exist := by
    norm_num [findNearDuplicate, firstWhere, dbC2, mC2cand, rC2exist,
      markerDupTolerance, markerZero]
  exact ⟨hdup,
    (C2_update_or_create mC2cand dbC2 (by decide)).2.1 rC2exist hdup (by decide)⟩

/-- C10: when a near-duplicate is overwritten by a candidate of not-lower
priority, only geometry, score, landmarks, embeddings and the subject link
are written; the surviving marker keeps its provenance tags, type, name,
face link, distance, size and validity flag. -/
theorem C10_overwrite_frame (m r : Marker) (db : DB) (hid : m.id = 0)
    (hdup : findNearDuplicate db m = some r)
    (hpr : ¬ SrcPriority m.markerSrc < SrcPriority r.markerSrc) :
    (UpdateOrCreateMarker m db).marker.markerSrc = r.markerSrc ∧
    (UpdateOrCreateMarker m db).marker.subjectSrc = r.subjectSrc ∧
    (UpdateOrCreateMarker m db).marker.markerType = r.markerType ∧
    (UpdateOrCreateMarker m db).marker.markerName = r.markerName ∧
    (UpdateOrCreateMarker m db).marker.faceID = r.faceID ∧
    (UpdateOrCreateMarker m db).marker.faceDist = r.faceDist ∧
    (UpdateOrCreateMarker m db).marker.size = r.size ∧
    (UpdateOrCreateMarker m db).marker.markerInvalid = r.markerInvalid ∧
    (UpdateOrCreateMarker m db).marker.id = r.id ∧
    (UpdateOrCreateMarker m db).marker.fileID = r.fileID ∧
    (UpdateOrCreateMarker m db).marker.matchedAt = r.matchedAt ∧
    (UpdateOrCreateMarker m db).marker.x = m.x ∧
    (UpdateOrCreateMarker m db).marker.y = m.y ∧
    (UpdateOrCreateMarker m db).marker.w = m.w ∧
    (UpdateOrCreateMarker m db).marker.h = m.h ∧
    (UpdateOrCreateMarker m db).marker.score = m.score ∧
    (UpdateOrCreateMarker m db).marker.landmarksJSON = m.landmarksJSON ∧
    (UpdateOrCreateMarker m db).marker.embeddingsJSON = m.embeddingsJSON ∧
    (UpdateOrCreateMarker m db).marker.subjectUID = m.subjectUID := by
  have hgt : ¬ m.id > 0 := by omega
  simp [UpdateOrCreateMarker, hgt, hdup, hpr]

/-- Witness for C10 at the concrete overwrite fixture. -/
theorem C10_overwrite_frame_witness :
    (UpdateOrCreateMarker mC2cand dbC2).marker.markerSrc = rC2exist.markerSrc ∧
    (UpdateOrCreateMarker mC2cand dbC2).marker.subjectSrc = rC2exist.subjectSrc ∧
    (UpdateOrCreateMarker mC2cand dbC2).marker.faceID = rC2exist.faceID ∧
    (UpdateOrCreateMarker mC2cand dbC2).marker.faceDist = rC2exist.faceDist ∧
    (UpdateOrCreateMarker mC2cand dbC2).marker.subjectUID = mC2cand.subjectUID := by
  have hdup : findNearDuplicate dbC2 mC2cand = some rC2exist := by
    norm_num [findNearDuplicate, firstWhere, dbC2, mC2cand, rC2exist,
      markerDupTolerance, markerZero]
  have h := C10_overwrite_frame mC2cand rC2exist dbC2 (by decide) hdup (by decide)
  exact ⟨h.1, h.2.1, h.2.2.2.2.1, h.2.2.2.2.2.1, h.2.2.2.2.2.2.2.2.2.2.2.2.2.2.2.2.2.2⟩

/-- GetSubject only changes the subject link fields of the marker: the
distance, score and validity flag survive. -/
theorem getSubject_pres (m : Marker) (db : DB) :
    (m.GetSubject db).2.1.faceDist = m.faceDist ∧
    (m.GetSubject db).2.1.score = m.score ∧
    (m.GetSubject db).2.1.markerInvalid = m.markerInvalid ∧
    (m.GetSubject db).2.1.faceID = m.faceID ∧
    (m.GetSubject db).2.1.x = m.x ∧
    (m.GetSubject db).2.1.y = m.y := by
  unfold Marker.GetSubject
  split
  · simp
  · split
    · split
      · simp
      · split
        · simp
        · simp
    · simp

/-- GetFace only changes the face link fields of the marker: the distance,
score, validity flag and the position survive. -/
theorem getFace_pres (m : Marker) (db : DB) :
    (m.GetFace db).2.1.faceDist = m.faceDist ∧
    (m.GetFace db).2.1.score = m.score ∧
    (m.GetFace db).2.1.markerInvalid = m.markerInvalid ∧
    (m.GetFace db).2.1.x = m.x ∧
    (m.GetFace db).2.1.y = m.y := by
  unfold Marker.GetFace
  split
  · simp
  · split
    · split
      · simp
      · split
        · simp
        · simp
    · simp

/-- SyncSubject never changes the distance, score, validity flag or
position of the marker it synchronizes. -/
theorem syncSubject_pres (m : Marker) (db : DB) (b : Bool) :
    (m.SyncSubject db b).1.faceDist = m.faceDist ∧
    (m.SyncSubject db b).1.score = m.score ∧
    (m.SyncSubject db b).1.markerInvalid = m.markerInvalid ∧
    (m.SyncSubject db b).1.x = m.x ∧
    (m.SyncSubject db b).1.y = m.y := by
  unfold Marker.SyncSubject
  split
  · exact ⟨rfl, rfl, rfl, rfl, rfl⟩
  · have h1 := getSubject_pres m db
    rcases hgs : m.GetSubject db with ⟨opt, m1, db1⟩
    rw [hgs] at h1
    simp only at h1
    cases opt with
    | none => simpa using ⟨h1.1, h1.2.1, h1.2.2.1, h1.2.2.2.2.1, h1.2.2.2.2.2⟩
    | some subj =>
      simp only
      by_cases hp : m1.faceID ≠ "" ∨ m1.subjectSrc ≠ SrcManual
      · simp only [if_pos hp]
        split <;> try split
        all_goals simp_all
      · simp only [if_neg hp]
        have h2 := getFace_pres m1
          (if m1.markerName = "" ∨ subj.subjectName = m1.markerName ∨
              (subj.subjectName ≠ "" ∧ m1.subjectSrc ≠ SrcManual) then db1
           else (subj.UpdateName m1.markerName db1).2)
        rcases hgf : m1.GetFace
          (if m1.markerName = "" ∨ subj.subjectName = m1.markerName ∨
              (subj.subjectName ≠ "" ∧ m1.subjectSrc ≠ SrcManual) then db1
           else (subj.UpdateName m1.markerName db1).2) with ⟨fopt, m2, db3⟩
        rw [hgf] at h2
        simp only at h2
        cases fopt with
        | none =>
          simp only
          split <;> try split
          all_goals simp_all
        | some fc =>
          simp only
          split <;> try split
          all_goals simp_all

/-- Save returns the input marker up to the assigned key: score, validity
flag and position survive. -/
theorem save_pres (m : Marker) (db : DB) :
    (m.Save db).marker.score = m.score ∧
    (m.Save db).marker.markerInvalid = m.markerInvalid := by
  unfold Marker.Save dbSave
  split
  · exact ⟨rfl, rfl⟩
  · split <;> simp

/-- The score-lifting step of SaveForm establishes the score invariant. -/
theorem saveFormStep2_inv (m1 : Marker) (c : Bool)
    (h : (saveFormStep2 m1 c).1.markerInvalid = false) :
    100 ≤ (saveFormStep2 m1 c).1.score := by
  unfold saveFormStep2 at h ⊢
  by_cases hc : m1.markerInvalid = false ∧ m1.score < 100
  · simp [hc]
  · simp only [if_neg hc] at h ⊢
    have h2 : ¬ m1.score < 100 := fun hlt => hc ⟨h, hlt⟩
    omega

/-- The manual-name tail of SaveForm preserves the score invariant through
SyncSubject and Save. -/
theorem saveForm_tail_inv (m3 : Marker) (db : DB)
    (hinv : m3.markerInvalid = false → 100 ≤ m3.score)
    (h : ((m3.SyncSubject db true).1.Save (m3.SyncSubject db true).2).marker.markerInvalid = false) :
    100 ≤ ((m3.SyncSubject db true).1.Save (m3.SyncSubject db true).2).marker.score := by
  have hs := syncSubject_pres m3 db true
  have hv := save_pres (m3.SyncSubject db true).1 (m3.SyncSubject db true).2
  rw [hv.2, hs.2.2.1] at h
  rw [hv.1, hs.2.1]
  exact hinv h

/-- C9 counterexample: Save happily persists a marker with MarkerInvalid
false and Score 50, so the invariant does not hold after every persisting
operation of the core. -/
theorem C9_counterexample :
    (mC9.Save dbEmpty).err = none ∧
    (mC9.Save dbEmpty).marker.markerInvalid = false ∧
    (mC9.Save dbEmpty).marker.score < 100 ∧
    (mC9.Save dbEmpty).marker ∈ (mC9.Save dbEmpty).db.markers := by decide

/-- C9 (amended): the invariant that a marker with MarkerInvalid false has
Score at least 100 is established by SaveForm for the marker it returns and
saves; Save, Create and UpdateOrCreateMarker do not themselves enforce it. -/
theorem C9_saveform_invariant (m : Marker) (f : FormMarker) (db : DB)
    (h : (m.SaveForm f db).marker.markerInvalid = false) :
    100 ≤ (m.SaveForm f db).marker.score := by
  have hstep := saveFormStep2_inv (saveFormStep1 m f).1 (saveFormStep1 m f).2
  unfold Marker.SaveForm at h ⊢
  by_cases hc : f.subjectSrc = SrcManual ∧ f.markerName.trim ≠ ""
  · simp only [if_pos hc] at h ⊢
    exact saveForm_tail_inv _ db (fun hh => hstep hh) h
  · simp only [if_neg hc] at h ⊢
    by_cases hb : (saveFormStep2 (saveFormStep1 m f).1 (saveFormStep1 m f).2).2 = true
    · simp only [hb, if_pos] at h ⊢
      have hv := save_pres (saveFormStep2 (saveFormStep1 m f).1 (saveFormStep1 m f).2).1 db
      rw [hv.2] at h
      rw [hv.1]
      exact hstep h
    · simp only [if_neg hb] at h ⊢
      exact hstep h

/-- Witness for C9: the concrete SaveForm run lifts the score of a valid
marker to 100. -/
theorem C9_saveform_invariant_witness :
    (mC9.SaveForm fC9 dbEmpty).marker.markerInvalid = false ∧
    100 ≤ (mC9.SaveForm fC9 dbEmpty).marker.score := by
  have h : (mC9.SaveForm fC9 dbEmpty).marker.markerInvalid = false := by decide
  exact ⟨h, C9_saveform_invariant mC9 fC9 dbEmpty h⟩

/-- C7: ClearFace with no face set only refreshes the match timestamp and
reports no update; with a face set it clears the face id and distance,
refreshes the timestamp, and clears the subject exactly when the subject
provenance is automatic, leaving a manually set subject untouched. -/
theorem C7_clear_face (m : Marker) (db : DB) (now : Nat) :
    (m.faceID = "" →
      m.ClearFace db now =
        { marker := { m with
                      matchedAt := some now },
          db := db.updateMarkerRow m.id (fun r => { r with
                                                    matchedAt := some now }),
          updated := false, err := none }) ∧
    (m.faceID ≠ "" →
      (m.ClearFace db now).updated = true ∧
      (m.ClearFace db now).err = none ∧
      (m.ClearFace db now).marker.faceID = "" ∧
      (m.ClearFace db now).marker.faceDist = -1 ∧
      (m.ClearFace db now).marker.matchedAt = some now ∧
      (m.ClearFace db now).marker.markerName = m.markerName ∧
      (m.ClearFace db now).marker.subjectSrc = m.subjectSrc ∧
      (m.subjectSrc = SrcAuto → (m.ClearFace db now).marker.subjectUID = "") ∧
      (m.subjectSrc ≠ SrcAuto →
        (m.ClearFace db now).marker.subjectUID = m.subjectUID)) := by
  constructor
  · intro h
    simp [Marker.ClearFace, Marker.Matched, h]
  · intro h
    by_cases hs : m.subjectSrc = SrcAuto
    · simp [Marker.ClearFace, h, hs]
    · simp [Marker.ClearFace, h, hs]

/-- Witness for C7: clearing the face of a marker with an automatic
subject clears the subject, while a manual subject survives. -/
theorem C7_clear_face_witness :
    (mC7auto.ClearFace dbEmpty 5).updated = true ∧
    (mC7auto.ClearFace dbEmpty 5).marker.subjectUID = "" ∧
    (mC7auto.ClearFace dbEmpty 5).marker.faceDist = -1 ∧
    (mC7manual.ClearFace dbEmpty 5).updated = true ∧
    (mC7manual.ClearFace dbEmpty 5).marker.subjectUID = mC7manual.subjectUID := by
  have h1 := (C7_clear_face mC7auto dbEmpty 5).2 (by decide)
  have h2 := (C7_clear_face mC7manual dbEmpty 5).2 (by decide)
  exact ⟨h1.1, h1.2.2.2.2.2.2.2.1 (by decide), h1.2.2.2.1, h2.1,
    h2.2.2.2.2.2.2.2.2 (by decide)⟩

/-- C1: for a face marker whose subject was set manually and is non-empty,
and a face bound to a different non-empty subject, SetFace invokes the
collision reporter exactly once with the marker embeddings, changes
neither the marker nor the database, returns updated false with no error
when the reporter answers, and propagates a reporter error with the
assignment not applied. -/
theorem C1_setface_conflict (m : Marker) (f : Face) (dist : ℚ)
    (edist : Embedding → Embedding → ℚ) (rc : CollisionReporter)
    (db : DB) (now : Nat)
    (hty : m.markerType = MarkerFace)
    (hsrc : m.subjectSrc = SrcManual)
    (hms : m.subjectUID ≠ "")
    (hfs : f.subjectUID ≠ "")
    (hne : f.subjectUID ≠ m.subjectUID) :
    (m.SetFace (some f) dist edist rc db now).collisions = [m.Embeddings] ∧
    (m.SetFace (some f) dist edist rc db now).marker = m ∧
    (m.SetFace (some f) dist edist rc db now).db = db ∧
    (m.SetFace (some f) dist edist rc db now).updated = false ∧
    (∀ b, rc m.Embeddings = Except.ok b →
      (m.SetFace (some f) dist edist rc db now).err = none) ∧
    (∀ e, rc m.Embeddings = Except.error e →
      (m.SetFace (some f) dist edist rc db now).err = some e) := by
  have hty2 : ¬ m.markerType ≠ MarkerFace := by simp [hty]
  have hguard : ¬ (m.subjectSrc ≠ SrcManual ∨ f.subjectUID = "" ∨
      m.subjectUID = "" ∨ f.subjectUID = m.subjectUID) := by
    push_neg
    exact ⟨by simp [hsrc], hfs, hms, hne⟩
  simp only [Marker.SetFace, if_neg hty2, if_neg hguard]
  cases hrc : rc m.Embeddings with
  | error e => simp [hrc]
  | ok b => simp [hrc]

/-- Witness for C1: the collision is reported once and nothing changes. -/
theorem C1_setface_conflict_witness :
    (mC1.SetFace (some fC1) (-1) sqDist rcTrue dbEmpty 3).collisions =
      [mC1.Embeddings] ∧
    (mC1.SetFace (some fC1) (-1) sqDist rcTrue dbEmpty 3).marker = mC1 ∧
    (mC1.SetFace (some fC1) (-1) sqDist rcTrue dbEmpty 3).updated = false ∧
    (mC1.SetFace (some fC1) (-1) sqDist rcTrue dbEmpty 3).err = none := by
  have h := C1_setface_conflict mC1 fC1 (-1) sqDist rcTrue dbEmpty 3
    (by decide) (by decide) (by decide) (by decide) (by decide)
  exact ⟨h.1, h.2.1, h.2.2.2.1, h.2.2.2.2.1 true rfl⟩

/-- C4: a second SetFace call on a marker already matched to the same face
with an agreeing subject only refreshes the match timestamp, returns
updated false, and leaves the face id, distance, subject and provenance
unchanged. -/
theorem C4_setface_idempotent (m : Marker) (f : Face) (dist : ℚ)
    (edist : Embedding → Embedding → ℚ) (rc : CollisionReporter)
    (db : DB) (now : Nat)
    (hty : m.markerType = MarkerFace)
    (hfid : m.faceID = f.id)
    (hsub : m.subjectUID = f.subjectUID) :
    m.SetFace (some f) dist edist rc db now =
      { marker := { m with
                    matchedAt := some now },
        face := some f,
        db := db.updateMarkerRow m.id (fun r => { r with
                                                  matchedAt := some now }),
        updated := false, err := none, collisions := [] } := by
  have hty2 : ¬ m.markerType ≠ MarkerFace := by simp [hty]
  have hguard : m.subjectSrc ≠ SrcManual ∨ f.subjectUID = "" ∨
      m.subjectUID = "" ∨ f.subjectUID = m.subjectUID :=
    Or.inr (Or.inr (Or.inr hsub.symm))
  have hadopt : ¬ (f.subjectUID = "" ∧ m.subjectUID ≠ "") :=
    fun hh => hh.2 (hsub.trans hh.1)
  simp only [Marker.SetFace, if_neg hty2, if_pos hguard, setFaceAssign,
    adoptSubject, if_neg hadopt, if_pos (And.intro hsub hfid)]

/-- Witness for C4: the concrete repeated call only refreshes MatchedAt. -/
theorem C4_setface_idempotent_witness :
    mC4.SetFace (some fC4) 2 sqDist rcOk dbEmpty 9 =
      { marker := { mC4 with
                    matchedAt := some 9 },
        face := some fC4,
        db := dbEmpty.updateMarkerRow mC4.id (fun r => { r with
                                                         matchedAt := some 9 }),
        updated := false, err := none, collisions := [] } :=
  C4_setface_idempotent mC4 fC4 2 sqDist rcOk dbEmpty 9
    (by decide) (by decide) (by decide)

/-- The distance-loop step agrees with min once the accumulator and the
new distance are nonnegative. -/
theorem minDistStep_eq_min (c d : ℚ) (hc : 0 ≤ c) : minDistStep c d = min c d := by
  unfold minDistStep
  rcases lt_or_ge d c with h | h
  · rw [if_pos (Or.inl h), min_eq_right h.le]
  · rw [if_neg (by push_neg; exact ⟨h, hc⟩), min_eq_left h]

/-- Folding the distance step from a nonnegative start over nonnegative
distances is folding min. -/
theorem foldl_minDistStep_eq_min (l : List ℚ) (c : ℚ) (hc : 0 ≤ c)
    (hl : ∀ d ∈ l, 0 ≤ d) :
    l.foldl minDistStep c = l.foldl min c := by
  induction l generalizing c with
  | nil => rfl
  | cons d ds ih =>
    have hd : 0 ≤ d := hl d (by simp)
    rw [List.foldl_cons, List.foldl_cons, minDistStep_eq_min c d hc]
    exact ih (min c d) (le_min hc hd) (fun e he => hl e (List.mem_cons_of_mem d he))

/-- Folding min never rises above the start. -/
theorem foldl_min_le_start (l : List ℚ) (c : ℚ) : l.foldl min c ≤ c := by
  induction l generalizing c with
  | nil => exact le_refl c
  | cons d ds ih => exact le_trans (ih (min c d)) (min_le_left c d)

/-- Folding min never rises above any element. -/
theorem foldl_min_le_mem (l : List ℚ) (c : ℚ) (d : ℚ) (hd : d ∈ l) :
    l.foldl min c ≤ d := by
  induction l generalizing c with
  | nil => cases hd
  | cons e es ih =>
    rcases List.mem_cons.mp hd with h | h
    · subst h
      exact le_trans (foldl_min_le_start es (min c d)) (min_le_right c d)
    · exact ih (min c e) h

/-- Folding min lands on the start or on an element. -/
theorem foldl_min_mem (l : List ℚ) (c : ℚ) :
    l.foldl min c = c ∨ l.foldl min c ∈ l := by
  induction l generalizing c with
  | nil => exact Or.inl rfl
  | cons d ds ih =>
    rw [List.foldl_cons]
    rcases ih (min c d) with h | h
    · rcases min_choice c d with hm | hm
      · exact Or.inl (h.trans hm)
      · exact Or.inr (by rw [h, hm]; exact List.mem_cons_self d ds)
    · exact Or.inr (List.mem_cons_of_mem d h)

/-- The distance loop is the step fold over the distances of the
length-matching embeddings. -/
theorem computeFaceDist_eq_foldl (edist : Embedding → Embedding → ℚ)
    (fe : Embedding) (embs : Embeddings) (c : ℚ) :
    computeFaceDist edist fe embs c =
      ((embs.filter (fun e => e.length == fe.length)).map
        (fun e => edist e fe)).foldl minDistStep c := by
  induction embs generalizing c with
  | nil => rfl
  | cons e es ih =>
    by_cases h : e.length = fe.length
    · rw [computeFaceDist, if_neg (by simp [h])]
      simp only [List.filter_cons, h]
      simp [ih]
    · rw [computeFaceDist, if_pos h]
      simp only [List.filter_cons]
      rw [if_neg (by simpa using h)]
      exact ih c

/-- The smallest-distance loop started at -1 lands on the minimum of the
matching distances, or stays -1 when no embedding length matches. -/
theorem computeFaceDist_spec (edist : Embedding → Embedding → ℚ)
    (fe : Embedding) (embs : Embeddings)
    (hnn : ∀ a b, 0 ≤ edist a b) :
    (embs.filter (fun e => e.length == fe.length) = [] →
      computeFaceDist edist fe embs (-1) = -1) ∧
    (embs.filter (fun e => e.length == fe.length) ≠ [] →
      computeFaceDist edist fe embs (-1) ∈
        ((embs.filter (fun e => e.length == fe.length)).map (fun e => edist e fe)) ∧
      ∀ d ∈ ((embs.filter (fun e => e.length == fe.length)).map (fun e => edist e fe)),
        computeFaceDist edist fe embs (-1) ≤ d) := by
  rw [computeFaceDist_eq_foldl]
  constructor
  · intro h
    rw [h]
    rfl
  · intro h
    rcases hds : (embs.filter (fun e => e.length == fe.length)).map (fun e => edist e fe) with _ | ⟨d0, rest⟩
    · exact absurd (List.map_eq_nil_iff.mp hds) h
    · have hball : ∀ d ∈ (embs.filter (fun e => e.length == fe.length)).map (fun e => edist e fe), 0 ≤ d := by
        intro d hdm
        rcases List.mem_map.mp hdm with ⟨e, _, he⟩
        rw [← he]
        exact hnn e fe
      have hd0 : 0 ≤ d0 := hball d0 (by rw [hds]; exact List.mem_cons_self d0 rest)
      have hrest : ∀ d ∈ rest, 0 ≤ d := by
        intro d hdm
        exact hball d (by rw [hds]; exact List.mem_cons_of_mem d0 hdm)
      rw [hds, List.foldl_cons]
      have hfirst : minDistStep (-1) d0 = d0 := by
        unfold minDistStep
        rw [if_pos (Or.inr (by norm_num))]
      rw [hfirst, foldl_minDistStep_eq_min rest d0 hd0 hrest]
      constructor
      · rcases foldl_min_mem rest d0 with h0 | h0
        · rw [h0]
          exact List.mem_cons_self d0 rest
        · exact List.mem_cons_of_mem d0 h0
      · intro d hdm
        rcases List.mem_cons.mp hdm with h0 | h0
        · rw [h0]
          exact foldl_min_le_start rest d0
        · exact foldl_min_le_mem rest d0 d h0

/-- Along the assignment path with a negative supplied distance, the
returned marker carries the distance computed by the smallest-distance
loop; adoption, subject synchronization and the final update leave it
alone. -/
theorem setFaceAssign_faceDist (m : Marker) (f : Face) (dist : ℚ)
    (edist : Embedding → Embedding → ℚ) (db : DB) (now : Nat)
    (hnotset : ¬ (m.subjectUID = (adoptSubject m f).subjectUID ∧
      m.faceID = (adoptSubject m f).id))
    (hdist : dist < 0) :
    (setFaceAssign m f dist edist db now).marker.faceDist =
      computeFaceDist edist f.embedding m.Embeddings dist := by
  have hemb : (adoptSubject m f).embedding = f.embedding := by
    unfold adoptSubject
    split <;> rfl
  simp only [setFaceAssign, if_neg hnotset]
  rw [(syncSubject_pres _ _ false).1]
  simp only [apply_ite Marker.faceDist, ite_self, if_pos hdist,
    Marker.Embeddings, hemb]

/-- C5 (amended): when SetFace with distance -1 reaches the assignment path
(the conflict guard lets it through and the face is not already set with an
agreeing subject), the resulting FaceDist is the minimum of the distances
between the face reference embedding and the marker embeddings of matching
length, every length-mismatched embedding being skipped; when no embedding
length matches, FaceDist stays -1. -/
theorem C5_setface_distance (m : Marker) (f : Face)
    (edist : Embedding → Embedding → ℚ) (rc : CollisionReporter)
    (db : DB) (now : Nat)
    (hty : m.markerType = MarkerFace)
    (hguard : m.subjectSrc ≠ SrcManual ∨ f.subjectUID = "" ∨ m.subjectUID = "" ∨
      f.subjectUID = m.subjectUID)
    (hnotset : ¬ (m.subjectUID = (adoptSubject m f).subjectUID ∧
      m.faceID = (adoptSubject m f).id))
    (hnn : ∀ a b, 0 ≤ edist a b) :
    (m.Embeddings.filter (fun e => e.length == f.embedding.length) = [] →
      (m.SetFace (some f) (-1) edist rc db now).marker.faceDist = -1) ∧
    (m.Embeddings.filter (fun e => e.length == f.embedding.length) ≠ [] →
      (m.SetFace (some f) (-1) edist rc db now).marker.faceDist ∈
        ((m.Embeddings.filter (fun e => e.length == f.embedding.length)).map
          (fun e => edist e f.embedding)) ∧
      ∀ d ∈ ((m.Embeddings.filter (fun e => e.length == f.embedding.length)).map
          (fun e => edist e f.embedding)),
        (m.SetFace (some f) (-1) edist rc db now).marker.faceDist ≤ d) := by
  have hty2 : ¬ m.markerType ≠ MarkerFace := by simp [hty]
  have hred : (m.SetFace (some f) (-1) edist rc db now).marker.faceDist =
      computeFaceDist edist f.embedding m.Embeddings (-1) := by
    simp only [Marker.SetFace, if_neg hty2, if_pos hguard]
    exact setFaceAssign_faceDist m f (-1) edist db now hnotset (by norm_num)
  rw [hred]
  exact computeFaceDist_spec edist f.embedding m.Embeddings hnn

/-- C5 counterexample: on a marker already matched to the face with an
agreeing subject, SetFace with distance -1 returns early and keeps the
stale FaceDist 5, even though a length-matching embedding at distance 0
exists, so the claim does not hold for every face marker and face. -/
theorem C5_counterexample :
    (mC5.SetFace (some fC5) (-1) edistZero rcOk dbEmpty 0).marker.faceDist = 5 ∧
    mC5.Embeddings.filter (fun e => e.length == fC5.embedding.length) = [[0]] ∧
    edistZero [0] fC5.embedding = 0 ∧ (5 : ℚ) ≠ 0 ∧ (5 : ℚ) ≠ -1 := by decide

/-- The piecewise distance collaborator is nonnegative. -/
theorem edistIf_nonneg : ∀ a b : Embedding, 0 ≤ edistIf a b := by
  intro a b
  unfold edistIf
  split <;> norm_num

/-- Witness for C5: the mismatched two-dimensional embedding is skipped and
the distance comes from the matching one-dimensional embedding. -/
theorem C5_setface_distance_witness :
    (mC5w.SetFace (some fC5w) (-1) edistIf rcOk dbEmpty 4).marker.faceDist ∈
      ((mC5w.Embeddings.filter (fun e => e.length == fC5w.embedding.length)).map
        (fun e => edistIf e fC5w.embedding)) ∧
    ∀ d ∈ ((mC5w.Embeddings.filter (fun e => e.length == fC5w.embedding.length)).map
        (fun e => edistIf e fC5w.embedding)),
      (mC5w.SetFace (some fC5w) (-1) edistIf rcOk dbEmpty 4).marker.faceDist ≤ d :=
  (C5_setface_distance mC5w fC5w edistIf rcOk dbEmpty 4
    (by decide) (by decide) (by decide) edistIf_nonneg).2 (by decide)

/-- The tail of SyncSubject once the subject resolved: the bound face
adopts the marker subject when it has none, and with updateRelated the
sibling markers with automatic differing subjects are rewritten. -/
theorem syncSubject_tail (m1 : Marker) (subj : Subject) (db1 : DB)
    (m : Marker) (db : DB)
    (hgs : m.GetSubject db = (some subj, m1, db1))
    (hty : m.markerType = MarkerFace)
    (hfid : m1.faceID ≠ "") (hsub : m1.subjectUID ≠ "")
    (hfaces : db1.faces = db.faces) (hmarkers : db1.markers = db.markers) :
    (∀ g ∈ db.faces, g.id = m1.faceID → g.subjectUID = "" →
      { g with
        subjectUID := m1.subjectUID } ∈ (m.SyncSubject db true).2.faces) ∧
    (∀ r ∈ db.markers, r.id ≠ m1.id → r.faceID = m1.faceID →
      r.subjectSrc = SrcAuto → r.subjectUID ≠ m1.subjectUID →
      { r with
        subjectUID := m1.subjectUID, subjectSrc := SrcAuto } ∈
        (m.SyncSubject db true).2.markers) := by
  have hty2 : ¬ m.markerType ≠ MarkerFace := by simp [hty]
  have hskip : m1.faceID ≠ "" ∨ m1.subjectSrc ≠ SrcManual := Or.inl hfid
  have hrel : ¬ (m1.faceID = "" ∨ m1.subjectUID = "") := by
    push_neg
    exact ⟨hfid, hsub⟩
  simp only [Marker.SyncSubject, if_neg hty2, hgs]
  simp only [if_pos hskip, if_neg hrel, if_neg (by decide : ¬ (true = false))]
  have hdb2f : (if m1.markerName = "" ∨ subj.subjectName = m1.markerName ∨
      (subj.subjectName ≠ "" ∧ m1.subjectSrc ≠ SrcManual) then db1
      else (subj.UpdateName m1.markerName db1).2).faces = db.faces := by
    split
    · exact hfaces
    · exact hfaces
  have hdb2m : (if m1.markerName = "" ∨ subj.subjectName = m1.markerName ∨
      (subj.subjectName ≠ "" ∧ m1.subjectSrc ≠ SrcManual) then db1
      else (subj.UpdateName m1.markerName db1).2).markers = db.markers := by
    split
    · exact hmarkers
    · exact hmarkers
  constructor
  · intro g hg hgid hgsub
    simp only [hdb2f]
    have hmem := List.mem_map_of_mem
      (fun f => if f.id = m1.faceID ∧ f.subjectUID = "" then
        { f with
          subjectUID := m1.subjectUID } else f) hg
    simpa [hgid, hgsub] using hmem
  · intro r hr hrid hrfid hrsrc hrsub
    simp only [hdb2f, hdb2m]
    have hmem := List.mem_map_of_mem
      (fun r => if r.id ≠ m1.id ∧ r.faceID = m1.faceID ∧ r.subjectSrc = SrcAuto ∧
          r.subjectUID ≠ m1.subjectUID then
        { r with
          subjectUID := m1.subjectUID, subjectSrc := SrcAuto } else r) hr
    simpa [hrid, hrfid, hrsrc, hrsub] using hmem

/-- C6 (amended): for a face marker with non-empty FaceID and SubjectUID
whose subject resolves, a SyncSubject pass with updateRelated true writes
the marker subject onto the bound face when that face has no subject, and
rewrites every other marker sharing the FaceID with automatic provenance
and a different subject to the marker subject with automatic provenance. -/
theorem C6_sync_subject (m : Marker) (subj : Subject) (db : DB)
    (hty : m.markerType = MarkerFace)
    (hfid : m.faceID ≠ "") (hsub : m.subjectUID ≠ "")
    (hres : m.subject = some subj ∨
      (m.subject = none ∧ FindSubject db m.subjectUID = some subj)) :
    (∀ g ∈ db.faces, g.id = m.faceID → g.subjectUID = "" →
      { g with
        subjectUID := m.subjectUID } ∈ (m.SyncSubject db true).2.faces) ∧
    (∀ r ∈ db.markers, r.id ≠ m.id → r.faceID = m.faceID →
      r.subjectSrc = SrcAuto → r.subjectUID ≠ m.subjectUID →
      { r with
        subjectUID := m.subjectUID, subjectSrc := SrcAuto } ∈
        (m.SyncSubject db true).2.markers) := by
  rcases hres with hc | ⟨hn, hf⟩
  · have hgs : m.GetSubject db = (some subj, m, db) := by
      unfold Marker.GetSubject
      rw [hc]
    exact syncSubject_tail m subj db m db hgs hty hfid hsub rfl rfl
  · have hgs : m.GetSubject db =
        (some subj, { m with
                      subject := some subj }, db) := by
      unfold Marker.GetSubject
      rw [hn]
      rw [if_neg (fun hh => hsub hh.1)]
      rw [hf]
    exact syncSubject_tail
      { m with
        subject := some subj } subj db m db hgs hty hfid hsub rfl rfl

/-- C6 counterexample: a SyncSubject pass with updateRelated false updates
the bound face but leaves the sibling marker with automatic provenance and
differing subject untouched, so one pass does not always bulk-update the
related markers. -/
theorem C6_counterexample :
    (mC6.SyncSubject dbC6 false).2.faces.map Face.subjectUID = ["sA"] ∧
    (mC6.SyncSubject dbC6 false).2.markers.map Marker.subjectUID = ["sA", "sB"] ∧
    ¬ ({ sibC6 with
         subjectUID := "sA", subjectSrc := SrcAuto } ∈
        (mC6.SyncSubject dbC6 false).2.markers) := by decide

/-- Witness for C6: the concrete pass writes sA onto face f6 and onto the
sibling marker. -/
theorem C6_sync_subject_witness :
    { fC6 with
      subjectUID := mC6.subjectUID } ∈ (mC6.SyncSubject dbC6 true).2.faces ∧
    { sibC6 with
      subjectUID := mC6.subjectUID, subjectSrc := SrcAuto } ∈
      (mC6.SyncSubject dbC6 true).2.markers := by
  have h := C6_sync_subject mC6 subjC6 dbC6 (by decide) (by decide) (by decide)
    (Or.inl (by decide))
  exact ⟨h.1 fC6 (by decide) (by decide) (by decide),
    h.2 sibC6 (by decide) (by decide) (by decide) (by decide) (by decide)⟩

/-- C8 (amended): ClearSubject resolves the marker face (by id when not
loaded); when a face is found it reports the detachment exactly once with
the marker embeddings, a reporter error propagates with no field change
and no persistence, and on success the cleared name, face id, distance and
subject together with the replacement source are persisted and applied in
memory; when no face resolves, the same fields are cleared in memory only
and nothing is persisted. -/
theorem C8_clear_subject (m : Marker) (src : String) (rc : CollisionReporter)
    (db : DB) :
    (resolveFace m db = none →
      m.ClearSubject src rc db =
        { marker := { m with
                      face := none, markerName := "", faceID := "",
                      faceDist := -1, subjectUID := "", subjectSrc := src },
          db := db, err := none, collisions := [] }) ∧
    (∀ f, resolveFace m db = some f →
      (m.ClearSubject src rc db).collisions = [m.Embeddings] ∧
      (∀ e, rc m.Embeddings = Except.error e →
        m.ClearSubject src rc db =
          { marker := { m with
                        face := some f },
            db := db, err := some e, collisions := [m.Embeddings] }) ∧
      (∀ b, rc m.Embeddings = Except.ok b →
        m.ClearSubject src rc db =
          { marker := { m with
                        face := none, markerName := "", faceID := "",
                        faceDist := -1, subjectUID := "", subjectSrc := src },
            db := db.updateMarkerRow m.id (fun r =>
              { r with
                markerName := "", faceID := "", faceDist := -1,
                subjectUID := "", subjectSrc := src }),
            err := none, collisions := [m.Embeddings] })) := by
  constructor
  · intro h
    unfold Marker.ClearSubject
    rw [h]
  · intro f hf
    unfold Marker.ClearSubject
    rw [hf]
    cases hrc : rc m.Embeddings with
    | error e =>
      refine ⟨rfl, ?_, ?_⟩
      · intro e2 he2
        injection he2 with hh
        subst hh
        rfl
      · intro b hb
        simp at hb
    | ok b0 =>
      refine ⟨rfl, ?_, ?_⟩
      · intro e2 he2
        simp at he2
      · intro b hb
        rfl

/-- C8 counterexample: with an unresolvable face id the cleared fields are
not persisted: the call succeeds, the in-memory marker is cleared, but the
database row keeps its name and subject, contradicting the claim of
unconditional persistence. -/
theorem C8_counterexample :
    (mC8.ClearSubject SrcManual rcOk dbC8).err = none ∧
    (mC8.ClearSubject SrcManual rcOk dbC8).marker.markerName = "" ∧
    (mC8.ClearSubject SrcManual rcOk dbC8).marker.subjectUID = "" ∧
    (mC8.ClearSubject SrcManual rcOk dbC8).db = dbC8 ∧
    (mC8.ClearSubject SrcManual rcOk dbC8).db.markers.map Marker.markerName =
      ["Ann"] ∧
    (mC8.ClearSubject SrcManual rcOk dbC8).db.markers.map Marker.subjectUID =
      ["sA"] := by decide

/-- Witness for C8: with the face resolvable the detachment is reported
once and the cleared fields are persisted to the row. -/
theorem C8_clear_subject_witness :
    (mC8b.ClearSubject SrcAuto rcOk dbC8b).collisions = [mC8b.Embeddings] ∧
    mC8b.ClearSubject SrcAuto rcOk dbC8b =
      { marker := { mC8b with
                    face := none, markerName := "", faceID := "",
                    faceDist := -1, subjectUID := "", subjectSrc := SrcAuto },
        db := dbC8b.updateMarkerRow mC8b.id (fun r =>
          { r with
            markerName := "", faceID := "", faceDist := -1,
            subjectUID := "", subjectSrc := SrcAuto }),
        err := none, collisions := [mC8b.Embeddings] } := by
  have h := (C8_clear_subject mC8b SrcAuto rcOk dbC8b).2 fC8 (by decide)
  exact ⟨h.1, h.2.2 false rfl⟩

end Photoprism
